import Mathlib

/-!
Shallow embedding of src/backend/src/server.js: the service bootstrap of a
minimal Express + Mongoose application. The file models, directly from the
source, the connection states of the mongoose connection, the resolution of
the PORT constant, the connectDB function, the connection lifecycle
observers, the SIGINT handler, the route table with its dispatch, and the
top-level evaluation of the module (node src/server.js).
-/

namespace Server

/-- Connection states of the mongoose connection, as the spec names them. -/
inductive ConnState where
  | disconnected
  | connecting
  | connected
  | errored
deriving DecidableEq, Repr

/-- A JavaScript value as the PORT constant can hold it: either the
environment string or the numeric fallback 3000. -/
inductive JSValue where
  | str (s : String)
  | num (n : Nat)
deriving DecidableEq, Repr

/-- Rendering of a PORT value inside the template literal of the listen
callback: a string renders as itself, a number in decimal. -/
def JSValue.text : JSValue → String
  | .str s => s
  | .num n => toString n

/-- Embedding of the line const PORT = process.env.PORT || 3000; in JS the
operator || returns its left operand when truthy; undefined is falsy and a
string is truthy exactly when it is non-empty. -/
def resolvePort (envPORT : Option String) : JSValue :=
  match envPORT with
  | none => JSValue.num 3000
  | some s => if s = "" then JSValue.num 3000 else JSValue.str s

/-- HTTP request methods. -/
inductive Method where
  | GET
  | POST
  | PUT
  | DELETE
  | PATCH
  | HEAD
  | OPTIONS
deriving DecidableEq, Repr

/-- Name of a method, used in the default 404 body of Express. -/
def Method.name : Method → String
  | .GET => "GET"
  | .POST => "POST"
  | .PUT => "PUT"
  | .DELETE => "DELETE"
  | .PATCH => "PATCH"
  | .HEAD => "HEAD"
  | .OPTIONS => "OPTIONS"

/-- An HTTP request: method, path, and raw body. -/
structure Request where
  method : Method
  path : String
  body : String
deriving DecidableEq, Repr

/-- An HTTP response: status code and body. -/
structure Response where
  status : Nat
  body : String
deriving DecidableEq, Repr

/-- Observable process state of the running module: the mongoose connection
state, the bound HTTP listener (none before app.listen takes effect), the
console log, and the exit status once process.exit has been called. -/
structure ProcState where
  conn : ConnState
  listener : Option JSValue
  log : List String
  exited : Option Nat
deriving DecidableEq, Repr

/-- A registered Express route: method, path, and handler. A handler
receives the request and the current process state and yields the response
together with the (possibly updated) process state. -/
structure Route where
  method : Method
  path : String
  handler : Request → ProcState → Response × ProcState

/-- Handler of the single route: res.send of the fixed liveness body. It
reads nothing from the request or the process state and leaves the state
untouched. -/
def rootHandler (_req : Request) (s : ProcState) : Response × ProcState :=
  ({ status := 200, body := "Node K8s App running!" }, s)

/-- The route table registered by server.js: exactly one app.get on path /. -/
def routes : List Route :=
  [{ method := Method.GET, path := "/", handler := rootHandler }]

/-- Whether a registered route matches a request. The Express 4 router
matches on the path and on the method, where a HEAD request is also
dispatched to a GET handler of the same path when no HEAD handler is
registered (Route._handles_method falls back from head to get). -/
def routeMatches (r : Route) (req : Request) : Bool :=
  (r.method == req.method ||
    (req.method == Method.HEAD && r.method == Method.GET)) &&
  r.path == req.path

/-- The first route matching a request, in registration order. -/
def findRoute (rs : List Route) (req : Request) : Option Route :=
  match rs with
  | [] => none
  | r :: rest => if routeMatches r req then some r else findRoute rest req

/-- Finalisation done by res.send: on a HEAD request Express sends the
status and headers but strips the body. -/
def sendResponse (req : Request) (out : Response × ProcState) :
    Response × ProcState :=
  if req.method == Method.HEAD then ({ out.1 with body := "" }, out.2) else out

/-- Methods the router advertises for a path in its default OPTIONS
response: the methods of the routes registered at that path, with HEAD
appended when GET is present and HEAD is not (Route._options). -/
def allowList (rs : List Route) (p : String) : List Method :=
  let ms := (rs.filter (fun r => r.path == p)).map (fun r => r.method)
  if ms.contains Method.GET && !ms.contains Method.HEAD then
    ms ++ [Method.HEAD]
  else ms

/-- Comma-separated rendering of a method list, as in the body and Allow
header of the default OPTIONS response. -/
def methodNames : List Method → String
  | [] => ""
  | [m] => m.name
  | m :: rest => m.name ++ "," ++ methodNames rest

/-- Body of the default OPTIONS response for a path. -/
def allowText (rs : List Route) (p : String) : String :=
  methodNames (allowList rs p)

/-- Express 4 dispatch: the first matching route handles the request (with
HEAD served by the GET handler and the body stripped by res.send). With no
matching route, an OPTIONS request whose path has registered routes gets
the router default response, 200 with the allowed-method list; every other
unmatched request gets the final handler 404 with body Cannot METHOD path. -/
def dispatch (rs : List Route) (req : Request) (s : ProcState) :
    Response × ProcState :=
  match findRoute rs req with
  | some r => sendResponse req (r.handler req s)
  | none =>
      if req.method == Method.OPTIONS && rs.any (fun r => r.path == req.path) then
        ({ status := 200, body := allowText rs req.path }, s)
      else
        ({ status := 404, body := "Cannot " ++ req.method.name ++ " " ++ req.path }, s)

/-- Options object passed to mongoose.connect in connectDB, field for field
from the source. -/
structure ConnectOptions where
  useNewUrlParser : Bool
  useUnifiedTopology : Bool
  serverSelectionTimeoutMS : Nat
  socketTimeoutMS : Nat
deriving DecidableEq, Repr

/-- The literal options of the one mongoose.connect call site. -/
def mongooseOptions : ConnectOptions :=
  { useNewUrlParser := true
  , useUnifiedTopology := true
  , serverSelectionTimeoutMS := 5000
  , socketTimeoutMS := 45000 }

/-- Outcome of running connectDB: the async function either returns
normally or calls process.exit with a code; both carry the console lines
it wrote. -/
inductive ConnectOutcome where
  | returned (log : List String)
  | exited (code : Nat) (log : List String)
deriving DecidableEq, Repr

/-- Embedding of connectDB. The awaited mongoose.connect call is abstracted
as a function of the options it is handed (so the options used are
observable), yielding ok or a thrown error message. The try/catch of the
source turns a successful await into the success log and every thrown
error into an error log followed by process.exit(1). -/
def connectDB (attempt : ConnectOptions → Except String Unit) : ConnectOutcome :=
  match attempt mongooseOptions with
  | Except.ok _ => ConnectOutcome.returned ["MongoDB Atlas Connected"]
  | Except.error err =>
      ConnectOutcome.exited 1 ["MongoDB Connection Error: " ++ err]

/-- Observer registered on the connected event: logs only. -/
def onConnected (s : ProcState) : ProcState :=
  { s with log := s.log ++ ["Mongoose connected to DB"] }

/-- Observer registered on the error event: logs only. -/
def onError (err : String) (s : ProcState) : ProcState :=
  { s with log := s.log ++ ["Mongoose connection error: " ++ err] }

/-- Observer registered on the disconnected event: logs only. -/
def onDisconnected (s : ProcState) : ProcState :=
  { s with log := s.log ++ ["Mongoose disconnected"] }

/-- Embedding of mongoose.connection.close(): the connection becomes
disconnected, which fires the registered disconnected observer. -/
def connectionClose (s : ProcState) : ProcState :=
  onDisconnected { s with conn := ConnState.disconnected }

/-- The SIGINT handler of server.js, in source order: await
mongoose.connection.close(), then log the completion message, then
process.exit(0). -/
def sigintHandler (s : ProcState) : ProcState :=
  let s1 := connectionClose s
  let s2 := { s1 with
    log := s1.log ++ ["Mongoose connection closed due to app termination"] }
  { s2 with exited := some 0 }

/-- Process environment relevant to server.js. -/
structure Env where
  MONGO_URI : Option String
  PORT : Option String
deriving DecidableEq, Repr

/-- Top-level evaluation of server.js (node src/server.js): it creates the
app with the JSON middleware, defines but does not invoke connectDB,
registers the three connection observers, the SIGINT handler and the single
route, computes PORT, and unconditionally calls app.listen(PORT) whose
callback logs the startup line. MONGO_URI is read only inside the body of
connectDB, which no statement of the module calls, so the resulting state
does not depend on it. -/
def moduleLoad (env : Env) : ProcState :=
  let port := resolvePort env.PORT
  { conn := ConnState.disconnected
  , listener := some port
  , log := ["Server started on port " ++ port.text]
  , exited := none }

/-- The module export of server.js: connectDB itself, handed to whoever
requires the module; nothing in this repository does. -/
def moduleExports : (ConnectOptions → Except String Unit) → ConnectOutcome :=
  connectDB

/-- Helper: a request whose path is not the registered / gets the final
handler 404 of Express and leaves the state unchanged. -/
theorem dispatch_wrong_path (req : Request) (s : ProcState)
    (h : req.path ≠ "/") :
    dispatch routes req s =
      ({ status := 404, body := "Cannot " ++ req.method.name ++ " " ++ req.path }, s) := by
  have hp : (("/" : String) == req.path) = false := by
    cases hb : (("/" : String) == req.path)
    · rfl
    · exact absurd (eq_of_beq hb).symm h
  simp [dispatch, findRoute, routes, routeMatches, hp]

/-- C1: the claim states that for an unreachable or invalid MONGO_URI,
starting the service makes the connection attempt fail, the process exit
with status 1, and the HTTP listener never bind. Counterexample: server.js
never invokes connectDB at startup and calls app.listen unconditionally,
so with a concrete unreachable URI the listener is bound and the process
has not exited with status 1. -/
theorem C1_startup_counterexample :
    (moduleLoad { MONGO_URI := some "mongodb://unreachable.invalid:27017/x",
                  PORT := none }).listener ≠ none ∧
    (moduleLoad { MONGO_URI := some "mongodb://unreachable.invalid:27017/x",
                  PORT := none }).exited ≠ some 1 := by
  exact ⟨by decide, by decide⟩

/-- C1 (amended): when connectDB is invoked and the connection attempt
throws, connectDB logs the error and exits the process with status 1; but
starting the service binds the HTTP listener unconditionally and does not
exit, because the module body never invokes connectDB. -/
theorem C1_amended_fatal_exit_and_unconditional_bind (env : Env)
    (attempt : ConnectOptions → Except String Unit) (err : String)
    (h : attempt mongooseOptions = Except.error err) :
    connectDB attempt =
      ConnectOutcome.exited 1 ["MongoDB Connection Error: " ++ err] ∧
    (moduleLoad env).listener = some (resolvePort env.PORT) ∧
    (moduleLoad env).exited = none := by
  refine ⟨?_, rfl, rfl⟩
  unfold connectDB
  rw [h]

/-- Witness for the amended C1 at a concrete failing attempt and env. -/
theorem C1_amended_witness :
    connectDB (fun _ => Except.error "getaddrinfo ENOTFOUND bad.host") =
      ConnectOutcome.exited 1
        ["MongoDB Connection Error: " ++ "getaddrinfo ENOTFOUND bad.host"] ∧
    (moduleLoad { MONGO_URI := some "mongodb://bad.host:27017/db",
                  PORT := none }).listener = some (resolvePort none) ∧
    (moduleLoad { MONGO_URI := some "mongodb://bad.host:27017/db",
                  PORT := none }).exited = none :=
  C1_amended_fatal_exit_and_unconditional_bind
    { MONGO_URI := some "mongodb://bad.host:27017/db", PORT := none }
    (fun _ => Except.error "getaddrinfo ENOTFOUND bad.host")
    "getaddrinfo ENOTFOUND bad.host" rfl

/-- C2: the claim expects the MongoDB Atlas Connected log line when the
service starts with a reachable URI. Counterexample: connectDB, the only
code that writes that line, is never invoked by the module, so the line is
absent from the startup log. -/
theorem C2_counterexample_no_connected_log :
    "MongoDB Atlas Connected" ∉
      (moduleLoad { MONGO_URI := some "mongodb://localhost:27017/test",
                    PORT := none }).log := by
  decide

/-- C2 (amended): with MONGO_URI pointing at localhost and PORT unset, the
listener binds 3000 and GET / answers 200 with the fixed body, but the
MongoDB Atlas Connected line is not logged, since connectDB is only
exported and never invoked at startup. -/
theorem C2_amended_startup_behavior (b : String) :
    (moduleLoad { MONGO_URI := some "mongodb://localhost:27017/test",
                  PORT := none }).listener = some (JSValue.num 3000) ∧
    (dispatch routes { method := Method.GET, path := "/", body := b }
        (moduleLoad { MONGO_URI := some "mongodb://localhost:27017/test",
                      PORT := none })).1 =
      { status := 200, body := "Node K8s App running!" } ∧
    "MongoDB Atlas Connected" ∉
      (moduleLoad { MONGO_URI := some "mongodb://localhost:27017/test",
                    PORT := none }).log := by
  refine ⟨rfl, rfl, ?_⟩
  decide

/-- C3: every GET / request, in every process state (hence every database
connection state), receives 200 with the fixed body and leaves the state
unchanged; the response is a constant not depending on the state. -/
theorem C3_root_route_constant (s : ProcState) (b : String) :
    dispatch routes { method := Method.GET, path := "/", body := b } s =
      ({ status := 200, body := "Node K8s App running!" }, s) := rfl

/-- C4: on SIGINT while Connected, the handler closes the connection first
(state Disconnected), appends the completion message to the log after the
close, and only then records exit status 0. -/
theorem C4_sigint_graceful_shutdown (s : ProcState)
    (_h : s.conn = ConnState.connected) :
    sigintHandler s =
      { connectionClose s with
          log := (connectionClose s).log ++
            ["Mongoose connection closed due to app termination"]
        , exited := some 0 } ∧
    (sigintHandler s).conn = ConnState.disconnected ∧
    (sigintHandler s).exited = some 0 :=
  ⟨rfl, rfl, rfl⟩

/-- Witness for C4 at a concrete Connected state. -/
theorem C4_sigint_witness :
    ({ conn := ConnState.connected, listener := some (JSValue.num 3000),
       log := ["Server started on port 3000"], exited := none } : ProcState).conn =
      ConnState.connected ∧
    ((sigintHandler
        { conn := ConnState.connected, listener := some (JSValue.num 3000),
          log := ["Server started on port 3000"], exited := none }).conn =
      ConnState.disconnected ∧
    (sigintHandler
        { conn := ConnState.connected, listener := some (JSValue.num 3000),
          log := ["Server started on port 3000"], exited := none }).exited =
      some 0) :=
  ⟨rfl, (C4_sigint_graceful_shutdown
    { conn := ConnState.connected, listener := some (JSValue.num 3000),
      log := ["Server started on port 3000"], exited := none } rfl).2⟩

/-- C5: the claim states that whenever PORT is set the listener binds the
supplied value. Counterexample: PORT set to the empty string is set, yet
the listener falls back to 3000 instead of binding the supplied value,
because the JS or-operator treats the empty string as falsy. -/
theorem C5_counterexample_empty_port :
    (moduleLoad { MONGO_URI := none, PORT := some "" }).listener ≠
      some (JSValue.str "") ∧
    (moduleLoad { MONGO_URI := none, PORT := some "" }).listener =
      some (JSValue.num 3000) := by
  exact ⟨by decide, rfl⟩

/-- C5 (amended): when PORT is set to a non-empty string the listener binds
that value; when PORT is unset, or set to the empty string, the listener
binds 3000. -/
theorem C5_amended_port_binding (uri : Option String) (p : String)
    (h : p ≠ "") :
    (moduleLoad { MONGO_URI := uri, PORT := some p }).listener =
      some (JSValue.str p) ∧
    (moduleLoad { MONGO_URI := uri, PORT := none }).listener =
      some (JSValue.num 3000) ∧
    (moduleLoad { MONGO_URI := uri, PORT := some "" }).listener =
      some (JSValue.num 3000) := by
  refine ⟨?_, rfl, rfl⟩
  simp [moduleLoad, resolvePort, h]

/-- Witness for the amended C5 at PORT set to 8080. -/
theorem C5_amended_witness :
    ("8080" : String) ≠ "" ∧
    (moduleLoad { MONGO_URI := none, PORT := some "8080" }).listener =
      some (JSValue.str "8080") :=
  ⟨by decide, (C5_amended_port_binding none "8080" (by decide)).1⟩

/-- C6: the single mongoose.connect call site passes a server-selection
timeout of 5000 ms and a socket timeout of 45000 ms, and connectDB depends
on the attempt only through its behaviour at exactly these options. -/
theorem C6_connect_timeouts :
    mongooseOptions.serverSelectionTimeoutMS = 5000 ∧
    mongooseOptions.socketTimeoutMS = 45000 ∧
    ∀ f g : ConnectOptions → Except String Unit,
      f mongooseOptions = g mongooseOptions → connectDB f = connectDB g := by
  refine ⟨rfl, rfl, ?_⟩
  intro f g h
  unfold connectDB
  rw [h]

/-- Witness for C6 at two concrete attempts agreeing on the options. -/
theorem C6_connect_timeouts_witness :
    mongooseOptions.serverSelectionTimeoutMS = 5000 ∧
    mongooseOptions.socketTimeoutMS = 45000 ∧
    connectDB (fun _ => Except.ok ()) = connectDB (fun _o => Except.ok ()) :=
  ⟨C6_connect_timeouts.1, C6_connect_timeouts.2.1,
    C6_connect_timeouts.2.2 _ _ rfl⟩

/-- C7: each registered connection observer only appends a log line: the
connection state, the listener and the exit status are all unchanged, so
none of them crashes the process or disturbs the bound listener. -/
theorem C7_observers_log_only (s : ProcState) (err : String) :
    (onConnected s = { s with log := s.log ++ ["Mongoose connected to DB"] } ∧
     onError err s =
       { s with log := s.log ++ ["Mongoose connection error: " ++ err] } ∧
     onDisconnected s = { s with log := s.log ++ ["Mongoose disconnected"] }) ∧
    ((onConnected s).conn = s.conn ∧ (onConnected s).listener = s.listener ∧
     (onConnected s).exited = s.exited) ∧
    ((onError err s).conn = s.conn ∧ (onError err s).listener = s.listener ∧
     (onError err s).exited = s.exited) ∧
    ((onDisconnected s).conn = s.conn ∧
     (onDisconnected s).listener = s.listener ∧
     (onDisconnected s).exited = s.exited) :=
  ⟨⟨rfl, rfl, rfl⟩, ⟨rfl, rfl, rfl⟩, ⟨rfl, rfl, rfl⟩, ⟨rfl, rfl, rfl⟩⟩

/-- C8: the claim states that for every request with any other method or
path the service does not answer 200. Counterexample: Express dispatches a
HEAD request to the registered GET handler, so HEAD on path / is served
with status 200 (body stripped by res.send) although HEAD is not GET. -/
theorem C8_counterexample_head_request :
    Method.HEAD ≠ Method.GET ∧
    (dispatch routes { method := Method.HEAD, path := "/", body := "" }
      { conn := ConnState.disconnected, listener := some (JSValue.num 3000),
        log := ["Server started on port 3000"], exited := none }).1.status = 200 :=
  ⟨by decide, rfl⟩

/-- C8 (amended): the route table registers exactly the single GET /
route; every request to another path gets 404; on path /, Express itself
serves HEAD through the GET handler with 200 and an empty body and answers
OPTIONS with the default 200 listing GET,HEAD, while every remaining
method gets 404; and the GET / response reads neither the request body nor
any part of the process state. -/
theorem C8_amended_http_surface :
    routes.map (fun r => (r.method, r.path)) = [(Method.GET, "/")] ∧
    (∀ req : Request, ∀ s : ProcState, req.path ≠ "/" →
      (dispatch routes req s).1.status = 404) ∧
    (∀ b : String, ∀ s : ProcState,
      dispatch routes { method := Method.HEAD, path := "/", body := b } s =
        ({ status := 200, body := "" }, s)) ∧
    (∀ b : String, ∀ s : ProcState,
      dispatch routes { method := Method.OPTIONS, path := "/", body := b } s =
        ({ status := 200, body := "GET,HEAD" }, s)) ∧
    (∀ m : Method, ∀ b : String, ∀ s : ProcState,
      m ≠ Method.GET → m ≠ Method.HEAD → m ≠ Method.OPTIONS →
      (dispatch routes { method := m, path := "/", body := b } s).1.status = 404) ∧
    (∀ b b' : String, ∀ t t' : ProcState,
      (dispatch routes { method := Method.GET, path := "/", body := b } t).1 =
      (dispatch routes { method := Method.GET, path := "/", body := b' } t').1) := by
  refine ⟨rfl, ?_, ?_, ?_, ?_, ?_⟩
  · intro req s h
    rw [dispatch_wrong_path req s h]
  · intro b s
    rfl
  · intro b s
    rfl
  · intro m b s h1 h2 h3
    cases m with
    | GET => exact absurd rfl h1
    | HEAD => exact absurd rfl h2
    | OPTIONS => exact absurd rfl h3
    | POST => rfl
    | PUT => rfl
    | DELETE => rfl
    | PATCH => rfl
  · intro b b' t t'
    rfl

/-- Witness for the amended C8 at concrete requests: a wrong path, HEAD /,
OPTIONS /, and POST /. -/
theorem C8_amended_witness :
    (dispatch routes { method := Method.POST, path := "/missing", body := "" }
      { conn := ConnState.connected, listener := some (JSValue.num 3000),
        log := [], exited := none }).1.status = 404 ∧
    dispatch routes { method := Method.HEAD, path := "/", body := "" }
      { conn := ConnState.connected, listener := some (JSValue.num 3000),
        log := [], exited := none } =
      ({ status := 200, body := "" },
        { conn := ConnState.connected, listener := some (JSValue.num 3000),
          log := [], exited := none }) ∧
    dispatch routes { method := Method.OPTIONS, path := "/", body := "" }
      { conn := ConnState.connected, listener := some (JSValue.num 3000),
        log := [], exited := none } =
      ({ status := 200, body := "GET,HEAD" },
        { conn := ConnState.connected, listener := some (JSValue.num 3000),
          log := [], exited := none }) ∧
    (dispatch routes { method := Method.POST, path := "/", body := "" }
      { conn := ConnState.connected, listener := some (JSValue.num 3000),
        log := [], exited := none }).1.status = 404 :=
  ⟨C8_amended_http_surface.2.1 _ _ (by decide),
    C8_amended_http_surface.2.2.1 _ _,
    C8_amended_http_surface.2.2.2.1 _ _,
    C8_amended_http_surface.2.2.2.2.1 _ _ _ (by decide) (by decide) (by decide)⟩

/-- C9: connectDB catches every error of the connection attempt: its only
outcomes are a normal return carrying the success log, or, when the
attempt threw some error, an exit with status 1 carrying the error log; no
rejection reaches the caller. -/
theorem C9_connectDB_catches_all (attempt : ConnectOptions → Except String Unit) :
    connectDB attempt = ConnectOutcome.returned ["MongoDB Atlas Connected"] ∨
    ∃ err : String, attempt mongooseOptions = Except.error err ∧
      connectDB attempt =
        ConnectOutcome.exited 1 ["MongoDB Connection Error: " ++ err] := by
  unfold connectDB
  cases h : attempt mongooseOptions with
  | ok u => exact Or.inl rfl
  | error e => exact Or.inr ⟨e, rfl, rfl⟩

/-- C10: the claim states that both the empty string and the string 0 are
falsy values of PORT falling back to 3000. Counterexample: the string 0 is
non-empty, hence truthy in JS, so it is passed through to app.listen
rather than replaced by 3000. -/
theorem C10_counterexample_zero_port :
    (moduleLoad { MONGO_URI := none, PORT := some "0" }).listener =
      some (JSValue.str "0") ∧
    (moduleLoad { MONGO_URI := none, PORT := some "0" }).listener ≠
      some (JSValue.num 3000) := by
  exact ⟨rfl, by decide⟩

/-- C10 (amended): of the two values the claim names, only the empty
string is falsy and falls back to 3000; the string 0 is truthy and the
listener receives it unchanged. -/
theorem C10_amended_truthiness :
    (moduleLoad { MONGO_URI := none, PORT := some "" }).listener =
      some (JSValue.num 3000) ∧
    (moduleLoad { MONGO_URI := none, PORT := some "0" }).listener =
      some (JSValue.str "0") :=
  ⟨rfl, rfl⟩

end Server
